import Mathlib

/-!
Shallow embedding of `src/main.py` (TikTok Scraper API): request models,
session-option construction (`get_api_instance`), the three POST endpoint
handlers (`scrape_user_videos`, `get_hashtag_trends`, `get_country_trends`),
the recency filter and the per-endpoint normalization of raw video records.

Modelling conventions:
* Timestamps are epoch seconds as `Int`; `datetime.now()` is a parameter
  `now : Int`; `timedelta(days=d)` is `d * 86400` seconds, so the Python
  comparison `datetime.fromtimestamp(t) < now - timedelta(days=d)` is
  `t < now - d * 86400` (`fromtimestamp` is strictly monotone).
* `datetime.isoformat` applied to `fromtimestamp t` is an uninterpreted
  parameter `iso : Int → String` (its exact rendering is irrelevant to
  every property below; only that it is a function of the timestamp).
* Calls into the external TikTokApi engine are oracles: each fetch the
  handler performs is passed in as an `Except String …` value, `.error e`
  standing for the call raising an exception whose `str` is `e`.
* A handler's outcome records the constructed session options, the HTTP
  result (`Except (Nat × String) ρ`: error = status code and `detail`
  string, as raised via `HTTPException(status_code=500, detail=str(e))`),
  and whether `api.close()` was executed before the handler returned.
* Python dict keys that an endpoint omits (`create_date`, `hashtags` on
  the user endpoint) are `Option` fields set to `none`.
-/

/-- The fixed pool of user agents (`USER_AGENTS` in `main.py`). -/
def USER_AGENTS : List String :=
  ["Mozilla/5.0 (Windows NT 10.0; Win64; x64) AppleWebKit/537.36 (KHTML, like Gecko) Chrome/91.0.4472.124 Safari/537.36",
   "Mozilla/5.0 (Macintosh; Intel Mac OS X 10_15_7) AppleWebKit/537.36 (KHTML, like Gecko) Chrome/91.0.4472.124 Safari/537.36",
   "Mozilla/5.0 (Windows NT 10.0; Win64; x64; rv:89.0) Gecko/20100101 Firefox/89.0"]

/-- Request body of `POST /scrape/user` (`TikTokRequest`). -/
structure TikTokRequest where
  username : String
  count : Int := 10
  use_proxy : Bool := false
  proxy : Option String := none
deriving Repr, DecidableEq

/-- Request body of `POST /trending/hashtag` (`HashtagRequest`).
`days : int` carries no pydantic constraint, so any integer validates. -/
structure HashtagRequest where
  hashtag : String
  count : Int := 10
  days : Int := 7
  use_proxy : Bool := false
  proxy : Option String := none
deriving Repr, DecidableEq

/-- Request body of `POST /trending/country` (`CountryTrendRequest`). -/
structure CountryTrendRequest where
  country_code : String := "US"
  count : Int := 10
  days : Int := 7
  use_proxy : Bool := false
  proxy : Option String := none
deriving Repr, DecidableEq

/-- Author sub-record of a raw video. -/
structure Author where
  username : String
  nickname : String
deriving Repr, DecidableEq

/-- Stats sub-record of a raw video. -/
structure Stats where
  play_count : Nat
  digg_count : Nat
  comment_count : Nat
  share_count : Nat
deriving Repr, DecidableEq

/-- A raw video record as yielded by the external engine: exactly the
fields `main.py` reads off a `video` object (`challenges` already mapped
to the list of tag names, `video.video.download_addr` as `download_addr`). -/
structure RawVideo where
  id : String
  desc : String
  create_time : Int
  author : Author
  stats : Stats
  challenges : List String
  download_addr : String
deriving Repr, DecidableEq

/-- A raw user record: the fields `scrape_user_videos` reads off `user`. -/
structure RawUser where
  username : String
  nickname : String
  follower_count : Nat
  following_count : Nat
  likes_count : Nat
deriving Repr, DecidableEq

/-- Process configuration plus the per-request random draw: the three
environment secrets and the index of the randomly chosen user agent. -/
structure Config where
  device_id : String
  verify_fp : String
  session_id : String
  uaIndex : Nat
deriving Repr, DecidableEq

/-- The options dictionary passed to `TikTokApi(**options)`:
`custom_device_id`, `custom_verify_fp`, `custom_session_id`, the headers
(user agent and assembled cookie string) and the optional `proxies`
entry (`http`/`https` both set to the proxy string when attached). -/
structure ApiOptions where
  custom_device_id : String
  custom_verify_fp : String
  custom_session_id : String
  userAgent : String
  cookie : String
  proxies : Option (String × String)
deriving Repr, DecidableEq

/-- Python truthiness of an `Optional[str]`: `None` and `""` are falsy. -/
def truthyOptStr : Option String → Bool
  | none => false
  | some s => s ≠ ""

/-- `get_api_instance(use_proxy, proxy)`: builds the cookie string from
the three secrets, picks the user agent, and attaches `proxies` exactly
when `if use_proxy and proxy:` is taken. Construction is total: the
Python body performs only dict construction and cannot raise here. -/
def get_api_instance (cfg : Config) (use_proxy : Bool) (proxy : Option String) :
    ApiOptions :=
  { custom_device_id := cfg.device_id
    custom_verify_fp := cfg.verify_fp
    custom_session_id := cfg.session_id
    userAgent := USER_AGENTS.getD (cfg.uaIndex % USER_AGENTS.length) ""
    cookie := "sessionid=" ++ cfg.session_id ++ "; ttwid=" ++ cfg.device_id ++
      "; s_v_web_id=" ++ cfg.verify_fp ++ "; tt_webid=" ++ cfg.device_id ++
      "; tt_webid_v2=" ++ cfg.device_id
    proxies :=
      if use_proxy && truthyOptStr proxy then
        match proxy with
        | some p => some (p, p)
        | none => none
      else none }

/-- Python `str.strip(chars)` on a character list: remove the longest run
of characters satisfying `p` from both ends. -/
def pyStripList (p : Char → Bool) (l : List Char) : List Char :=
  ((l.dropWhile p).reverse.dropWhile p).reverse

/-- `request.hashtag.strip('#')` in `get_hashtag_trends`: Python `strip`
removes the character from both ends of the string. -/
def pyStripHash (s : String) : String :=
  ⟨pyStripList (fun c => c = '#') s.data⟩

/-- Modelled from the spec: the spec's words "normalized by stripping a
leading `#`" taken literally, i.e. removing one leading `#` only and
leaving the rest of the string unchanged; user for comparison with the
code's `pyStripHash`. -/
def specStripLeadingHash (s : String) : String :=
  match s.data with
  | '#' :: rest => ⟨rest⟩
  | _ => s

/-- A normalized output video. `create_date` and `hashtags` are `none`
when the endpoint's dict literal omits those keys. -/
structure NormalizedVideo where
  id : String
  desc : String
  create_time : Int
  create_date : Option String
  author : Author
  stats : Stats
  hashtags : Option (List String)
  video_url : String
deriving Repr, DecidableEq

/-- The `video_data` dict built in `scrape_user_videos`: no `create_date`
key and no `hashtags` key. -/
def normalizeUserVideo (v : RawVideo) : NormalizedVideo :=
  { id := v.id
    desc := v.desc
    create_time := v.create_time
    create_date := none
    author := v.author
    stats := v.stats
    hashtags := none
    video_url := v.download_addr }

/-- The `video_data` dict built in `get_hashtag_trends` and
`get_country_trends`: includes `create_date = video_date.isoformat()`
and the `hashtags` list of challenge names. -/
def normalizeTrendVideo (iso : Int → String) (v : RawVideo) : NormalizedVideo :=
  { id := v.id
    desc := v.desc
    create_time := v.create_time
    create_date := some (iso v.create_time)
    author := v.author
    stats := v.stats
    hashtags := some v.challenges
    video_url := v.download_addr }

/-- The `user_info` object of the `/scrape/user` response. -/
structure UserInfoOut where
  username : String
  nickname : String
  follower_count : Nat
  following_count : Nat
  likes_count : Nat
deriving Repr, DecidableEq

/-- Projection of a raw user record to the response's `user_info`. -/
def normalizeUser (u : RawUser) : UserInfoOut :=
  { username := u.username
    nickname := u.nickname
    follower_count := u.follower_count
    following_count := u.following_count
    likes_count := u.likes_count }

/-- Response body of `POST /scrape/user`. -/
structure UserResponse where
  user_info : UserInfoOut
  videos : List NormalizedVideo
deriving Repr, DecidableEq

/-- Response body of `POST /trending/hashtag`. -/
structure HashtagResponse where
  hashtag : String
  days_filter : Int
  videos : List NormalizedVideo
deriving Repr, DecidableEq

/-- Response body of `POST /trending/country`. -/
structure CountryResponse where
  country_code : String
  days_filter : Int
  videos : List NormalizedVideo
deriving Repr, DecidableEq

/-- What a handler invocation produced: the session options it built,
the HTTP result (`.error (500, detail)` models
`HTTPException(status_code=500, detail=str(e))`, so an error response
carries no payload fields at all), and whether `await api.close()` ran. -/
structure EndpointOutcome (ρ : Type) where
  session : ApiOptions
  result : Except (Nat × String) ρ
  closed : Bool

/-- The `for video in hashtag_videos` loop of the trending endpoints:
skip the video when `fromtimestamp(create_time) < now - timedelta(days)`,
otherwise append the normalized record. -/
def trendLoop (now days : Int) (iso : Int → String) : List RawVideo → List NormalizedVideo
  | [] => []
  | v :: rest =>
    if v.create_time < now - days * 86400 then trendLoop now days iso rest
    else normalizeTrendVideo iso v :: trendLoop now days iso rest

/-- The recency filter as its own function: keep `v` iff
`¬ (v.create_time < now - days * 86400)`, i.e. iff
`now - days * 86400 ≤ v.create_time`. -/
def filterByRecency (now days : Int) (l : List RawVideo) : List RawVideo :=
  l.filter fun v => ! decide (v.create_time < now - days * 86400)

/-- `POST /scrape/user` handler. Oracles: `fetchInfo` for
`api.user(...).info()`, `fetchVideos` for `api.user(...).videos(...)`.
On an oracle error the `except` clause raises `HTTPException(500, str(e))`
without reaching the `await api.close()` line. -/
def scrape_user_videos (cfg : Config) (req : TikTokRequest)
    (fetchInfo : Except String RawUser)
    (fetchVideos : Except String (List RawVideo)) :
    EndpointOutcome UserResponse :=
  let api := get_api_instance cfg req.use_proxy req.proxy
  match fetchInfo with
  | Except.error e => ⟨api, Except.error (500, e), false⟩
  | Except.ok u =>
    match fetchVideos with
    | Except.error e => ⟨api, Except.error (500, e), false⟩
    | Except.ok vids =>
      ⟨api, Except.ok ⟨normalizeUser u, vids.map normalizeUserVideo⟩, true⟩

/-- `POST /trending/hashtag` handler. Oracle: `fetch` for
`api.hashtag(name=hashtag).videos(count=...)`. -/
def get_hashtag_trends (cfg : Config) (now : Int) (iso : Int → String)
    (req : HashtagRequest) (fetch : Except String (List RawVideo)) :
    EndpointOutcome HashtagResponse :=
  let api := get_api_instance cfg req.use_proxy req.proxy
  let hashtag := pyStripHash req.hashtag
  match fetch with
  | Except.error e => ⟨api, Except.error (500, e), false⟩
  | Except.ok vids =>
    ⟨api, Except.ok ⟨hashtag, req.days, trendLoop now req.days iso vids⟩, true⟩

/-- `POST /trending/country` handler. Oracle: `fetch` for
`api.trending.videos(count=..., region=...)`. -/
def get_country_trends (cfg : Config) (now : Int) (iso : Int → String)
    (req : CountryTrendRequest) (fetch : Except String (List RawVideo)) :
    EndpointOutcome CountryResponse :=
  let api := get_api_instance cfg req.use_proxy req.proxy
  match fetch with
  | Except.error e => ⟨api, Except.error (500, e), false⟩
  | Except.ok vids =>
    ⟨api, Except.ok ⟨req.country_code, req.days, trendLoop now req.days iso vids⟩, true⟩

/-- The trending loop is the stable filter followed by normalization. -/
theorem trendLoop_eq (now days : Int) (iso : Int → String) (l : List RawVideo) :
    trendLoop now days iso l = (filterByRecency now days l).map (normalizeTrendVideo iso) := by
  induction l with
  | nil => rfl
  | cons v rest ih =>
    by_cases h : v.create_time < now - days * 86400 <;>
      simp [trendLoop, filterByRecency, List.filter_cons, h, ih]

/-- If `dropWhile p` returns a cons, its head fails `p`. -/
theorem dropWhile_eq_cons_head_false {α : Type} (p : α → Bool) :
    ∀ (l : List α) (a : α) (t : List α), l.dropWhile p = a :: t → p a = false := by
  intro l
  induction l with
  | nil => intro a t h; simp [List.dropWhile] at h
  | cons b l ih =>
    intro a t h
    by_cases hb : p b
    · rw [List.dropWhile_cons, if_pos hb] at h
      exact ih a t h
    · rw [List.dropWhile_cons, if_neg hb] at h
      cases h
      simpa using hb

/-- `dropWhile` is idempotent. -/
theorem dropWhile_idem {α : Type} (p : α → Bool) (l : List α) :
    (l.dropWhile p).dropWhile p = l.dropWhile p := by
  rcases hm : l.dropWhile p with _ | ⟨a, t⟩
  · simp
  · have ha := dropWhile_eq_cons_head_false p l a t hm
    rw [List.dropWhile_cons, if_neg (by simp [ha])]

/-- `dropWhile p l` is obtained from `l` by removing an initial segment. -/
theorem exists_append_dropWhile {α : Type} (p : α → Bool) (l : List α) :
    ∃ t, l = t ++ l.dropWhile p := by
  induction l with
  | nil => exact ⟨[], rfl⟩
  | cons a l ih =>
    by_cases h : p a
    · obtain ⟨t, ht⟩ := ih
      refine ⟨a :: t, ?_⟩
      rw [List.dropWhile_cons, if_pos h, List.cons_append, ← ht]
    · refine ⟨[], ?_⟩
      rw [List.dropWhile_cons, if_neg h, List.nil_append]

/-- A fully stripped list is fixed by a further `dropWhile` at either end. -/
theorem pyStripList_no_ends (p : Char → Bool) (l : List Char) :
    (pyStripList p l).dropWhile p = pyStripList p l ∧
    (pyStripList p l).reverse.dropWhile p = (pyStripList p l).reverse := by
  constructor
  · rcases hr : pyStripList p l with _ | ⟨a, t⟩
    · simp
    · obtain ⟨s, hs⟩ := exists_append_dropWhile p (l.dropWhile p).reverse
      have hm2 : l.dropWhile p = pyStripList p l ++ s.reverse := by
        have h2 := congrArg List.reverse hs
        rw [List.reverse_reverse, List.reverse_append] at h2
        exact h2
      rw [hr] at hm2
      have ha : p a = false :=
        dropWhile_eq_cons_head_false p l a (t ++ s.reverse)
          (by rw [hm2, List.cons_append])
      rw [List.dropWhile_cons, if_neg (by simp [ha])]
  · have h3 : (pyStripList p l).reverse = ((l.dropWhile p).reverse).dropWhile p := by
      unfold pyStripList
      rw [List.reverse_reverse]
    rw [h3]
    exact dropWhile_idem p (l.dropWhile p).reverse

/-- Two-sided stripping is idempotent. -/
theorem pyStripList_idem (p : Char → Bool) (l : List Char) :
    pyStripList p (pyStripList p l) = pyStripList p l := by
  obtain ⟨h1, h2⟩ := pyStripList_no_ends p l
  show ((((pyStripList p l).dropWhile p).reverse).dropWhile p).reverse = pyStripList p l
  rw [h1, h2, List.reverse_reverse]

/-- `str.strip('#')` is idempotent. -/
theorem pyStripHash_idem (s : String) : pyStripHash (pyStripHash s) = pyStripHash s := by
  unfold pyStripHash
  exact congrArg String.mk (pyStripList_idem _ s.data)

/-- Normalization for the trending endpoints is injective (every raw field,
including the timestamp, is preserved in the output). -/
theorem normalizeTrendVideo_inj (iso : Int → String) :
    Function.Injective (normalizeTrendVideo iso) := by
  intro v w h
  cases v
  cases w
  simp only [normalizeTrendVideo, NormalizedVideo.mk.injEq, Option.some.injEq] at h
  obtain ⟨h1, h2, h3, _, h5, h6, h7, h8⟩ := h
  simp [RawVideo.mk.injEq, h1, h2, h3, h5, h6, h7, h8]

/-- Success shape of the user endpoint. -/
theorem user_result_ok (cfg : Config) (req : TikTokRequest) (u : RawUser)
    (l : List RawVideo) :
    (scrape_user_videos cfg req (Except.ok u) (Except.ok l)).result =
      Except.ok ⟨normalizeUser u, l.map normalizeUserVideo⟩ := rfl

/-- Success shape of the hashtag endpoint. -/
theorem hashtag_result_ok (cfg : Config) (now : Int) (iso : Int → String)
    (req : HashtagRequest) (l : List RawVideo) :
    (get_hashtag_trends cfg now iso req (Except.ok l)).result =
      Except.ok ⟨pyStripHash req.hashtag, req.days, trendLoop now req.days iso l⟩ := rfl

/-- Success shape of the country endpoint. -/
theorem country_result_ok (cfg : Config) (now : Int) (iso : Int → String)
    (req : CountryTrendRequest) (l : List RawVideo) :
    (get_country_trends cfg now iso req (Except.ok l)).result =
      Except.ok ⟨req.country_code, req.days, trendLoop now req.days iso l⟩ := rfl

/-- Sample configuration used by concrete witnesses. -/
def cfg0 : Config :=
  { device_id := "dev1", verify_fp := "fp1", session_id := "sess1", uaIndex := 0 }

/-- Sample ISO rendering function used by concrete witnesses. -/
def iso0 : Int → String := fun t => toString t

/-- Sample recent video (timestamp 1000). -/
def vA : RawVideo :=
  { id := "v1", desc := "a clip", create_time := 1000
    author := { username := "alice", nickname := "Alice" }
    stats := { play_count := 5, digg_count := 4, comment_count := 3, share_count := 2 }
    challenges := ["funny"], download_addr := "http://cdn/v1" }

/-- Sample ancient video (timestamp far in the past). -/
def vOld : RawVideo :=
  { id := "v0", desc := "old clip", create_time := -1000000000
    author := { username := "bob", nickname := "Bob" }
    stats := { play_count := 1, digg_count := 1, comment_count := 1, share_count := 1 }
    challenges := ["retro"], download_addr := "http://cdn/v0" }

/-- Sample raw user record. -/
def user0 : RawUser :=
  { username := "alice", nickname := "Alice", follower_count := 10
    following_count := 7, likes_count := 100 }

/-- Sample `/scrape/user` request. -/
def req_u0 : TikTokRequest := { username := "alice" }

/-- Sample `/trending/hashtag` request. -/
def req_h0 : HashtagRequest := { hashtag := "#funny" }

/-- Sample `/trending/country` request. -/
def req_c0 : CountryTrendRequest := {}

/-- C1: on the hashtag and country-trending endpoints, for `days ≥ 0` a
raw record is kept iff its timestamp `t` satisfies `t ≥ now - days*86400`;
a record whose timestamp equals the threshold exactly is kept (inclusive
boundary), and `days = 0` keeps exactly the records with `t ≥ now`, with
no special case; the endpoints' `videos` lists are the normalizations of
exactly the kept records. -/
theorem C1_recency_threshold_inclusive (now days : Int) (hd : 0 ≤ days)
    (l : List RawVideo) (v : RawVideo) :
    (v ∈ filterByRecency now days l ↔ v ∈ l ∧ now - days * 86400 ≤ v.create_time) ∧
    (v ∈ l → v.create_time = now - days * 86400 → v ∈ filterByRecency now days l) ∧
    (v ∈ filterByRecency now 0 l ↔ v ∈ l ∧ now ≤ v.create_time) ∧
    (∀ (cfg : Config) (iso : Int → String) (req : HashtagRequest) (r : HashtagResponse),
      req.days = days →
      (get_hashtag_trends cfg now iso req (Except.ok l)).result = Except.ok r →
      r.videos = (filterByRecency now days l).map (normalizeTrendVideo iso)) ∧
    (∀ (cfg : Config) (iso : Int → String) (req : CountryTrendRequest) (r : CountryResponse),
      req.days = days →
      (get_country_trends cfg now iso req (Except.ok l)).result = Except.ok r →
      r.videos = (filterByRecency now days l).map (normalizeTrendVideo iso)) := by
  refine ⟨?_, ?_, ?_, ?_, ?_⟩
  · simp [filterByRecency, List.mem_filter, not_lt]
  · intro hv he
    simp [filterByRecency, List.mem_filter, not_lt, hv, he]
  · simp [filterByRecency, List.mem_filter, not_lt]
  · intro cfg iso req r hdays hr
    rw [hashtag_result_ok] at hr
    injection hr with h
    rw [← h, hdays]
    exact trendLoop_eq now days iso l
  · intro cfg iso req r hdays hr
    rw [country_result_ok] at hr
    injection hr with h
    rw [← h, hdays]
    exact trendLoop_eq now days iso l

/-- C1 witness at a concrete input: `now = 1000`, `days = 7`, record
timestamps `1000` and `-1000000000`. -/
theorem C1_witness :
    vA ∈ filterByRecency 1000 7 [vA, vOld] ↔
      vA ∈ [vA, vOld] ∧ 1000 - 7 * 86400 ≤ vA.create_time :=
  (C1_recency_threshold_inclusive 1000 7 (by decide) [vA, vOld] vA).1

/-- C2: the code calls `await api.close()` only at the end of the `try`
block; when any fetch raises, control jumps to `except` and re-raises
`HTTPException(500, …)` without closing the session. So on every error
exit the session is left unreleased (`closed = false`), while the success
exit does close it — refuting guaranteed release on every exit path. -/
theorem C2_close_skipped_on_error (cfg : Config) (now : Int) (iso : Int → String)
    (req_u : TikTokRequest) (req_h : HashtagRequest) (req_c : CountryTrendRequest)
    (e : String) (fv : Except String (List RawVideo)) (u : RawUser) :
    (scrape_user_videos cfg req_u (Except.error e) fv).closed = false ∧
    (scrape_user_videos cfg req_u (Except.ok u) (Except.error e)).closed = false ∧
    (get_hashtag_trends cfg now iso req_h (Except.error e)).closed = false ∧
    (get_country_trends cfg now iso req_c (Except.error e)).closed = false ∧
    (scrape_user_videos cfg req_u (Except.ok u) (Except.ok [])).closed = true :=
  ⟨rfl, rfl, rfl, rfl, rfl⟩

/-- C3 counterexample: Python `"funny#".strip('#')` also removes the
trailing `#`, yielding `"funny"`, whereas stripping only a leading `#`
and leaving the rest unchanged would yield `"funny#"`; the endpoint
response therefore differs from the claim's normalization. -/
theorem C3_counterexample :
    pyStripHash "funny#" = "funny" ∧
    specStripLeadingHash "funny#" = "funny#" ∧
    pyStripHash "funny#" ≠ specStripLeadingHash "funny#" ∧
    (get_hashtag_trends cfg0 0 iso0 { hashtag := "funny#" } (Except.ok [])).result =
      Except.ok { hashtag := "funny", days_filter := 7, videos := [] } :=
  ⟨rfl, rfl, by decide, rfl⟩

/-- C3 (amended): the hashtag is normalized with Python `strip('#')`,
which removes all leading AND trailing `#` characters (interior ones are
kept); this normalization is idempotent, and the response's `hashtag`
field equals the normalized value. -/
theorem C3_strip_idempotent_response (cfg : Config) (now : Int) (iso : Int → String)
    (req : HashtagRequest) (fetch : Except String (List RawVideo)) (r : HashtagResponse)
    (h : (get_hashtag_trends cfg now iso req fetch).result = Except.ok r) :
    r.hashtag = pyStripHash req.hashtag ∧
    pyStripHash (pyStripHash req.hashtag) = pyStripHash req.hashtag ∧
    pyStripHash "#funny" = "funny" ∧ pyStripHash "funny" = "funny" := by
  cases fetch with
  | error e => simp [get_hashtag_trends] at h
  | ok l =>
    rw [hashtag_result_ok] at h
    injection h with h
    exact ⟨by rw [← h], pyStripHash_idem req.hashtag, rfl, rfl⟩

/-- C3 witness at a concrete input: request hashtag `"#funny"`. -/
theorem C3_witness :
    (HashtagResponse.mk "funny" 7 []).hashtag = pyStripHash "#funny" ∧
    pyStripHash (pyStripHash "#funny") = pyStripHash "#funny" ∧
    pyStripHash "#funny" = "funny" ∧ pyStripHash "funny" = "funny" :=
  C3_strip_idempotent_response cfg0 0 iso0 { hashtag := "#funny" } (Except.ok [])
    (HashtagResponse.mk "funny" 7 []) rfl

/-- C4 counterexample: a raised exception whose message is the empty
string (Python `Exception()`, `str(e) = ""`) yields an HTTP 500 whose
`detail` is `""` — an empty string — refuting "detail is a non-empty
string" as universally stated. -/
theorem C4_counterexample :
    (get_hashtag_trends cfg0 0 iso0 req_h0 (Except.error "")).result =
      Except.error (500, "") ∧
    String.length "" = 0 :=
  ⟨rfl, rfl⟩

/-- C4 (amended): when any fetch step raises, every endpoint responds
with HTTP 500 whose `detail` equals the failure's message text (hence
non-empty whenever that message is non-empty), and the error result
carries no payload, so no partial `videos` list appears. -/
theorem C4_error_500_with_message (cfg : Config) (now : Int) (iso : Int → String)
    (req_u : TikTokRequest) (req_h : HashtagRequest) (req_c : CountryTrendRequest)
    (u : RawUser) (fv : Except String (List RawVideo)) (e : String) (he : e ≠ "") :
    (scrape_user_videos cfg req_u (Except.error e) fv).result = Except.error (500, e) ∧
    (scrape_user_videos cfg req_u (Except.ok u) (Except.error e)).result = Except.error (500, e) ∧
    (get_hashtag_trends cfg now iso req_h (Except.error e)).result = Except.error (500, e) ∧
    (get_country_trends cfg now iso req_c (Except.error e)).result = Except.error (500, e) ∧
    e ≠ "" :=
  ⟨rfl, rfl, rfl, rfl, he⟩

/-- C4 witness at a concrete input: message `"boom"`. -/
theorem C4_witness :
    (scrape_user_videos cfg0 req_u0 (Except.error "boom") (Except.ok [])).result =
      Except.error (500, "boom") ∧
    (scrape_user_videos cfg0 req_u0 (Except.ok user0) (Except.error "boom")).result =
      Except.error (500, "boom") ∧
    (get_hashtag_trends cfg0 0 iso0 req_h0 (Except.error "boom")).result =
      Except.error (500, "boom") ∧
    (get_country_trends cfg0 0 iso0 req_c0 (Except.error "boom")).result =
      Except.error (500, "boom") ∧
    ("boom" : String) ≠ "" :=
  C4_error_500_with_message cfg0 0 iso0 req_u0 req_h0 req_c0 user0 (Except.ok [])
    "boom" (by decide)

/-- C5: the recency filter is applied only on the trending endpoints:
the `/scrape/user` handler loop appends every fetched record, so its
response lists the normalization of every fetched video in order,
regardless of `create_time`, while the hashtag endpoint's list is the
filtered one. -/
theorem C5_user_endpoint_unfiltered (cfg : Config) (req : TikTokRequest)
    (u : RawUser) (l : List RawVideo) (r : UserResponse)
    (h : (scrape_user_videos cfg req (Except.ok u) (Except.ok l)).result = Except.ok r) :
    r.videos = l.map normalizeUserVideo ∧
    r.videos.length = l.length ∧
    (∀ v ∈ l, normalizeUserVideo v ∈ r.videos) ∧
    (∀ (now : Int) (iso : Int → String) (reqh : HashtagRequest) (rh : HashtagResponse),
      (get_hashtag_trends cfg now iso reqh (Except.ok l)).result = Except.ok rh →
      rh.videos = (filterByRecency now reqh.days l).map (normalizeTrendVideo iso)) := by
  rw [user_result_ok] at h
  injection h with h
  refine ⟨by rw [← h], by rw [← h]; simp, ?_, ?_⟩
  · intro v hv
    rw [← h]
    exact List.mem_map_of_mem normalizeUserVideo hv
  · intro now iso reqh rh hh
    rw [hashtag_result_ok] at hh
    injection hh with hh
    rw [← hh]
    exact trendLoop_eq now reqh.days iso l

/-- C5 witness at a concrete input: two fetched videos, one with an
ancient timestamp; both appear in the `/scrape/user` response. -/
theorem C5_witness :
    [normalizeUserVideo vA, normalizeUserVideo vOld] = [vA, vOld].map normalizeUserVideo ∧
    [normalizeUserVideo vA, normalizeUserVideo vOld].length = [vA, vOld].length ∧
    (∀ v ∈ [vA, vOld], normalizeUserVideo v ∈ [normalizeUserVideo vA, normalizeUserVideo vOld]) ∧
    (∀ (now : Int) (iso : Int → String) (reqh : HashtagRequest) (rh : HashtagResponse),
      (get_hashtag_trends cfg0 now iso reqh (Except.ok [vA, vOld])).result = Except.ok rh →
      rh.videos = (filterByRecency now reqh.days [vA, vOld]).map (normalizeTrendVideo iso)) :=
  C5_user_endpoint_unfiltered cfg0 req_u0 user0 [vA, vOld]
    ⟨normalizeUser user0, [normalizeUserVideo vA, normalizeUserVideo vOld]⟩ rfl

/-- C6: for every list of records and every `days` (and `now`), the
recency filter returns a sublist of its input — the kept records in
their original relative order, no re-sort — and is idempotent: filtering
an already-filtered list with the same `days` and `now` is the identity. -/
theorem C6_filter_stable_idempotent (now days : Int) (l : List RawVideo) :
    (filterByRecency now days l).Sublist l ∧
    filterByRecency now days (filterByRecency now days l) = filterByRecency now days l := by
  constructor
  · exact List.filter_sublist l
  · simp [filterByRecency, List.filter_filter]

/-- C7: field presence is deterministic per endpoint: every video of a
`/scrape/user` response has no `create_date` and no `hashtags` key,
while every video of a hashtag or country response carries a `hashtags`
list and a `create_date` equal to the ISO rendering of its creation
timestamp. -/
theorem C7_field_presence (cfg : Config) (now : Int) (iso : Int → String)
    (req_u : TikTokRequest) (req_h : HashtagRequest) (req_c : CountryTrendRequest)
    (u : RawUser) (lu lh lc : List RawVideo)
    (ru : UserResponse) (rh : HashtagResponse) (rc : CountryResponse)
    (hu : (scrape_user_videos cfg req_u (Except.ok u) (Except.ok lu)).result = Except.ok ru)
    (hh : (get_hashtag_trends cfg now iso req_h (Except.ok lh)).result = Except.ok rh)
    (hc : (get_country_trends cfg now iso req_c (Except.ok lc)).result = Except.ok rc) :
    (∀ v ∈ ru.videos, v.create_date = none ∧ v.hashtags = none) ∧
    (∀ v ∈ rh.videos, v.create_date = some (iso v.create_time) ∧ ∃ hs, v.hashtags = some hs) ∧
    (∀ v ∈ rc.videos, v.create_date = some (iso v.create_time) ∧ ∃ hs, v.hashtags = some hs) := by
  rw [user_result_ok] at hu
  rw [hashtag_result_ok] at hh
  rw [country_result_ok] at hc
  injection hu with hu
  injection hh with hh
  injection hc with hc
  refine ⟨?_, ?_, ?_⟩
  · intro v hv
    rw [← hu] at hv
    simp only [List.mem_map] at hv
    obtain ⟨w, _, hw⟩ := hv
    rw [← hw]
    exact ⟨rfl, rfl⟩
  · intro v hv
    rw [← hh] at hv
    simp only [trendLoop_eq, List.mem_map] at hv
    obtain ⟨w, _, hw⟩ := hv
    rw [← hw]
    exact ⟨rfl, w.challenges, rfl⟩
  · intro v hv
    rw [← hc] at hv
    simp only [trendLoop_eq, List.mem_map] at hv
    obtain ⟨w, _, hw⟩ := hv
    rw [← hw]
    exact ⟨rfl, w.challenges, rfl⟩

/-- C7 witness at a concrete input: one video kept on each endpoint. -/
theorem C7_witness :
    (∀ v ∈ [normalizeUserVideo vA], v.create_date = none ∧ v.hashtags = none) ∧
    (∀ v ∈ [normalizeTrendVideo iso0 vA],
      v.create_date = some (iso0 v.create_time) ∧ ∃ hs, v.hashtags = some hs) ∧
    (∀ v ∈ [normalizeTrendVideo iso0 vA],
      v.create_date = some (iso0 v.create_time) ∧ ∃ hs, v.hashtags = some hs) :=
  C7_field_presence cfg0 0 iso0 req_u0 req_h0 req_c0 user0 [vA] [vA] [vA]
    ⟨normalizeUser user0, [normalizeUserVideo vA]⟩
    ⟨pyStripHash "#funny", 7, [normalizeTrendVideo iso0 vA]⟩
    ⟨"US", 7, [normalizeTrendVideo iso0 vA]⟩
    rfl rfl rfl

/-- C8: `use_proxy = true` with `proxy = None` does not raise (session
construction is a total function in the embedding, as the Python body is
plain dict construction) and attaches no proxy settings; and whenever
proxy settings are attached, `use_proxy` was true and a proxy string was
supplied. -/
theorem C8_proxy_only_when_present (cfg : Config) (up : Bool) (p : Option String)
    (h : ((get_api_instance cfg up p).proxies).isSome = true) :
    (get_api_instance cfg true none).proxies = none ∧
    up = true ∧ (∃ s, p = some s) := by
  cases p with
  | none => simp [get_api_instance, truthyOptStr] at h
  | some s =>
    cases up with
    | false => simp [get_api_instance, truthyOptStr] at h
    | true => exact ⟨rfl, rfl, s, rfl⟩

/-- C8 witness at a concrete input: proxy string `"http://p:8080"`. -/
theorem C8_witness :
    (get_api_instance cfg0 true none).proxies = none ∧
    true = true ∧ (∃ s, (some "http://p:8080" : Option String) = some s) :=
  C8_proxy_only_when_present cfg0 true (some "http://p:8080") (by decide)

/-- C9: `days` is an unconstrained integer, so negative values validate
and the handlers answer `200`-style success; for `days < 0` the
threshold `now - days*86400` lies strictly in the future, so every
record with timestamp ≤ `now` is excluded and the `videos` list of both
trending endpoints is empty when all records are past-dated. -/
theorem C9_negative_days_empty (cfg : Config) (now : Int) (iso : Int → String)
    (req : HashtagRequest) (reqc : CountryTrendRequest) (l : List RawVideo)
    (hd : req.days < 0) (hdc : reqc.days < 0)
    (hl : ∀ v ∈ l, v.create_time ≤ now) :
    (get_hashtag_trends cfg now iso req (Except.ok l)).result =
      Except.ok ⟨pyStripHash req.hashtag, req.days, []⟩ ∧
    (get_country_trends cfg now iso reqc (Except.ok l)).result =
      Except.ok ⟨reqc.country_code, reqc.days, []⟩ := by
  have hempty : ∀ d : Int, d < 0 → trendLoop now d iso l = [] := by
    intro d hd0
    rw [trendLoop_eq]
    have hf : filterByRecency now d l = [] := by
      simp only [filterByRecency, List.filter_eq_nil_iff]
      intro v hv
      have h1 : v.create_time ≤ now := hl v hv
      simp only [Bool.not_eq_true', decide_eq_false_iff_not, not_not]
      omega
    rw [hf]
    rfl
  constructor
  · rw [hashtag_result_ok, hempty req.days hd]
  · rw [country_result_ok, hempty reqc.days hdc]

/-- C9 witness at a concrete input: `days = -1` and `-2`, one record
dated before `now = 2000`. -/
theorem C9_witness :
    (get_hashtag_trends cfg0 2000 iso0 ⟨"x", 10, -1, false, none⟩ (Except.ok [vA])).result =
      Except.ok ⟨pyStripHash "x", -1, []⟩ ∧
    (get_country_trends cfg0 2000 iso0 ⟨"US", 10, -2, false, none⟩ (Except.ok [vA])).result =
      Except.ok ⟨"US", -2, []⟩ :=
  C9_negative_days_empty cfg0 2000 iso0 ⟨"x", 10, -1, false, none⟩
    ⟨"US", 10, -2, false, none⟩ [vA] (by decide) (by decide) (by decide)

/-- C10: given identical raw records from the engine and an identical
clock, the response body of each endpoint is independent of the
configuration (the three secrets and the randomly chosen user agent):
two runs differing only in `Config` produce identical results, even
though the constructed sessions differ. -/
theorem C10_response_independent_of_config (cfg1 cfg2 : Config) (now : Int)
    (iso : Int → String) (req_u : TikTokRequest) (req_h : HashtagRequest)
    (req_c : CountryTrendRequest) (fi : Except String RawUser)
    (fv fh fc : Except String (List RawVideo)) :
    (scrape_user_videos cfg1 req_u fi fv).result =
      (scrape_user_videos cfg2 req_u fi fv).result ∧
    (get_hashtag_trends cfg1 now iso req_h fh).result =
      (get_hashtag_trends cfg2 now iso req_h fh).result ∧
    (get_country_trends cfg1 now iso req_c fc).result =
      (get_country_trends cfg2 now iso req_c fc).result := by
  refine ⟨?_, ?_, ?_⟩
  · cases fi with
    | error e => rfl
    | ok u => cases fv with
      | error e => rfl
      | ok l => rfl
  · cases fh with
    | error e => rfl
    | ok l => rfl
  · cases fc with
    | error e => rfl
    | ok l => rfl
